import Mathlib

/-
Verification of the alert state-transition recording layer:
the transition-detecting decorator (`StateAwareMarker`, types/state_aware_marker.go)
and the storage-backed append sink (`DuckDBStateAppender`).

All claims concern a single fingerprint (the decorator's snapshot/mutate/recheck
sequence is serialized per fingerprint by precondition), so the authority state is
embedded as the per-fingerprint projection: `Option AlertStatus`, `none` meaning the
fingerprint has never been observed (its status reads back as `Unprocessed`).
-/

namespace AlertAnalytics

/-- Alert lifecycle states (`AlertState` in types.go, plus the fork's `Deleted`). -/
inductive AlertState where
  | unprocessed
  | active
  | suppressed
  | deleted
  deriving DecidableEq, Repr

/-- Go `AlertState.String()`. -/
def AlertState.str : AlertState → String
  | .unprocessed => "unprocessed"
  | .active => "active"
  | .suppressed => "suppressed"
  | .deleted => "deleted"

/-- Per-alert status snapshot (`AlertStatus`): coarse state, the silence IDs and
pending silence IDs last recorded, the inhibitor list, and the silences version. -/
structure AlertStatus where
  state : AlertState
  silencedBy : List String
  pendingSilences : List String
  inhibitedBy : List String
  silencesVersion : Int
  deriving DecidableEq, Repr

/-- The status an authority reports for a fingerprint it has never stored. -/
def emptyStatus : AlertStatus :=
  { state := .unprocessed, silencedBy := [], pendingSilences := [],
    inhibitedBy := [], silencesVersion := 0 }

/-- Modelled from the spec: the Status Authority ("MemMarker", `NewMarker`) is an
external collaborator whose source is not part of the core fragment; the spec
describes it as a per-fingerprint in-memory status store with default/no-op
behaviour for unseen fingerprints (section 4.1), accessors `Status`, `Silenced`,
`Inhibited` and mutators `SetActiveOrSilenced`, `SetInhibited`, `Delete`
(section 6). `Status` on an unseen fingerprint reports `Unprocessed`. -/
def MemMarker.status (m : Option AlertStatus) : AlertStatus :=
  m.getD emptyStatus

/-- Modelled from the spec: the authority's `SetActiveOrSilenced` mutator records
the silence IDs, pending silence IDs, and version, then derives the coarse state:
the alert is `Suppressed` when any silence (active or pending, per the spec's
testable property on non-empty `activeSilenceIDs`/`pendingSilenceIDs`) or any
inhibitor is associated with it, `Active` otherwise. Unseen fingerprints get a
fresh default entry first. -/
def MemMarker.setActiveOrSilenced (m : Option AlertStatus) (version : Int)
    (activeSilenceIDs pendingSilenceIDs : List String) : Option AlertStatus :=
  let s := m.getD emptyStatus
  let s := { s with silencedBy := activeSilenceIDs, pendingSilences := pendingSilenceIDs,
                    silencesVersion := version }
  if activeSilenceIDs = [] ∧ pendingSilenceIDs = [] ∧ s.inhibitedBy = [] then
    some { s with state := AlertState.active }
  else
    some { s with state := AlertState.suppressed }

/-- Modelled from the spec: the authority's `SetInhibited` mutator records the
inhibitor list, then derives the coarse state: `Active` when no inhibitor and no
silence is associated with the alert, `Suppressed` otherwise. -/
def MemMarker.setInhibited (m : Option AlertStatus) (alertIDs : List String) :
    Option AlertStatus :=
  let s := m.getD emptyStatus
  let s := { s with inhibitedBy := alertIDs }
  if alertIDs = [] ∧ s.silencedBy = [] ∧ s.pendingSilences = [] then
    some { s with state := AlertState.active }
  else
    some { s with state := AlertState.suppressed }

/-- Modelled from the spec: the silenced flag returned by the authority's
`Silenced` accessor — the alert is currently `Suppressed` and a silence is
associated with it. -/
def MemMarker.silencedNow (m : Option AlertStatus) : Prop :=
  (MemMarker.status m).state = AlertState.suppressed ∧
    ((MemMarker.status m).silencedBy ≠ [] ∨ (MemMarker.status m).pendingSilences ≠ [])

instance (m : Option AlertStatus) : Decidable (MemMarker.silencedNow m) := by
  unfold MemMarker.silencedNow
  infer_instance

/-- Modelled from the spec: the resolved inhibitor list returned by the
authority's `Inhibited` accessor. -/
def MemMarker.inhibitedIDs (m : Option AlertStatus) : List String :=
  (MemMarker.status m).inhibitedBy

/-- Modelled from the spec: the inhibited flag returned by the authority's
`Inhibited` accessor — the alert is currently `Suppressed` and has a non-empty
inhibitor list. -/
def MemMarker.inhibitedNow (m : Option AlertStatus) : Prop :=
  (MemMarker.status m).state = AlertState.suppressed ∧ (MemMarker.status m).inhibitedBy ≠ []

instance (m : Option AlertStatus) : Decidable (MemMarker.inhibitedNow m) := by
  unfold MemMarker.inhibitedNow
  infer_instance

/-- Modelled from the spec: the authority's `Delete` removes the fingerprint's
entry; its status reads back as `Unprocessed` afterwards. -/
def MemMarker.delete (_ : Option AlertStatus) : Option AlertStatus :=
  none

/-- One call the decorator issues to the `StateAppender` sink: `Append(fp, state)`
or `AppendInhibited(fp, inhibitedBy)`. -/
inductive AppendCall where
  | append (state : AlertState)
  | appendInhibited (inhibitedBy : List String)
  deriving DecidableEq, Repr

/-- `StateAwareMarker.SetActiveOrSilenced`: snapshot the status, delegate the
mutation, re-query `Silenced`; if silenced append `Suppressed` unless the snapshot
was already `Suppressed`; otherwise do nothing if the snapshot was `Suppressed`
with a non-empty `InhibitedBy` or was `Active`, else append `Active`.
Returns the authority state after the mutation and the emitted sink calls. -/
def StateAwareMarker.setActiveOrSilenced (m : Option AlertStatus) (version : Int)
    (activeSilenceIDs pendingSilenceIDs : List String) :
    Option AlertStatus × List AppendCall :=
  let currStatus := MemMarker.status m
  let m1 := MemMarker.setActiveOrSilenced m version activeSilenceIDs pendingSilenceIDs
  if MemMarker.silencedNow m1 then
    if currStatus.state ≠ AlertState.suppressed then
      (m1, [AppendCall.append AlertState.suppressed])
    else
      (m1, [])
  else if currStatus.state = AlertState.suppressed ∧ currStatus.inhibitedBy ≠ [] then
    (m1, [])
  else if currStatus.state = AlertState.active then
    (m1, [])
  else
    (m1, [AppendCall.append AlertState.active])

/-- `StateAwareMarker.SetInhibited`: snapshot the status, delegate the mutation,
re-query `Inhibited`; if inhibited with resolved list `by`: append the inhibited
suppression when the snapshot was not `Suppressed`, or when the snapshot's
`InhibitedBy` differs from the passed `alertIDs` (`!slices.Equal`); if not
inhibited: do nothing when the snapshot was `Suppressed` or `Active`, else append
`Active`. -/
def StateAwareMarker.setInhibited (m : Option AlertStatus) (alertIDs : List String) :
    Option AlertStatus × List AppendCall :=
  let currStatus := MemMarker.status m
  let m1 := MemMarker.setInhibited m alertIDs
  if MemMarker.inhibitedNow m1 then
    if currStatus.state ≠ AlertState.suppressed then
      (m1, [AppendCall.appendInhibited (MemMarker.inhibitedIDs m1)])
    else if currStatus.inhibitedBy ≠ alertIDs then
      (m1, [AppendCall.appendInhibited (MemMarker.inhibitedIDs m1)])
    else
      (m1, [])
  else if currStatus.state = AlertState.suppressed ∨ currStatus.state = AlertState.active then
    (m1, [])
  else
    (m1, [AppendCall.append AlertState.active])

/-- `StateAwareMarker.Delete`: snapshot the status, delegate the deletion, then
append `Deleted` unless the snapshot state was `Unprocessed`. -/
def StateAwareMarker.delete (m : Option AlertStatus) :
    Option AlertStatus × List AppendCall :=
  let currStatus := MemMarker.status m
  let m1 := MemMarker.delete m
  if currStatus.state = AlertState.unprocessed then
    (m1, [])
  else
    (m1, [AppendCall.append AlertState.deleted])

/-- A mutating call on the decorator, for reasoning about call sequences. -/
inductive MarkerOp where
  | setActiveOrSilenced (version : Int) (activeSilenceIDs pendingSilenceIDs : List String)
  | setInhibited (alertIDs : List String)
  | delete
  deriving DecidableEq, Repr

/-- Dispatch one mutating call on the decorator. -/
def stepOp (m : Option AlertStatus) : MarkerOp → Option AlertStatus × List AppendCall
  | .setActiveOrSilenced v a p => StateAwareMarker.setActiveOrSilenced m v a p
  | .setInhibited ids => StateAwareMarker.setInhibited m ids
  | .delete => StateAwareMarker.delete m

/-- Run a serialized sequence of mutating calls, collecting the emitted sink
calls in order. -/
def runOps (m : Option AlertStatus) : List MarkerOp → Option AlertStatus × List AppendCall
  | [] => (m, [])
  | op :: ops =>
    ((runOps (stepOp m op).1 ops).1, (stepOp m op).2 ++ (runOps (stepOp m op).1 ops).2)

/-- The `suppressed_reason` value written for a silence-caused suppression. -/
def reasonSilenced : String := "silenced"

/-- The `suppressed_reason` value written for an inhibition-caused suppression. -/
def reasonInhibited : String := "inhibited"

/-- The message `DuckDBStateAppender.Append` logs when a write fails. -/
def appendErrLog : String := "failed to append alert state in db"

/-- The message `DuckDBStateAppender.AppendInhibited` logs when a write fails. -/
def appendInhibitedErrLog : String := "failed to append inhibited alert state in db"

/-- One persisted `alert_states` row, with the generated id and timestamp
abstracted away: `(fingerprint, state, suppressed_by, suppressed_reason)`. -/
structure StateRow where
  fingerprint : String
  state : String
  suppressedBy : Option String
  suppressedReason : Option String
  deriving DecidableEq, Repr

/-- The failure points of one sink call: `uuidFail` — `uuid.NewV7()` returns an
error (so `uuid.Must` panics); `writeFail` — the store's `AppendRow` returns an
error. `uuid.UUID.MarshalBinary` never fails (it returns the bytes with a nil
error), so the code's marshal-error branch is dead and has no scenario flag. -/
structure FailScenario where
  uuidFail : Bool
  writeFail : Bool
  deriving DecidableEq, Repr

/-- How one sink call terminates: a normal (void) return, a panic out of
`uuid.Must`, or an index-out-of-range panic on `inhibitedBy[0]`. -/
inductive AppendOutcome where
  | returned
  | uuidPanic
  | indexPanic
  deriving DecidableEq, Repr

/-- Observable effect of one sink call: how it terminated, the rows handed to the
store, and the error-log messages produced. -/
structure AppendResult where
  outcome : AppendOutcome
  rows : List StateRow
  logs : List String
  deriving DecidableEq, Repr

/-- `DuckDBStateAppender.Append`: generate an id with `uuid.Must(uuid.NewV7())`
(panics if generation fails), then append the row; a `Suppressed` state writes
`suppressed_by = null`, `suppressed_reason = "silenced"`, any other state writes
both as null; an `AppendRow` error is logged by the deferred handler and
swallowed. -/
def DuckDBStateAppender.append (fingerprint : String) (state : AlertState)
    (scen : FailScenario) : AppendResult :=
  if scen.uuidFail then
    { outcome := .uuidPanic, rows := [], logs := [] }
  else if state = AlertState.suppressed then
    if scen.writeFail then
      { outcome := .returned, rows := [], logs := [appendErrLog] }
    else
      { outcome := .returned,
        rows := [{ fingerprint := fingerprint, state := state.str,
                   suppressedBy := none, suppressedReason := some reasonSilenced }],
        logs := [] }
  else if scen.writeFail then
    { outcome := .returned, rows := [], logs := [appendErrLog] }
  else
    { outcome := .returned,
      rows := [{ fingerprint := fingerprint, state := state.str,
                 suppressedBy := none, suppressedReason := none }],
      logs := [] }

/-- `DuckDBStateAppender.AppendInhibited`: generate an id with
`uuid.Must(uuid.NewV7())` (panics if generation fails), then append a row with
state `Suppressed`, `suppressed_by = inhibitedBy[0]` (an out-of-range panic when
the list is empty), `suppressed_reason = "inhibited"`; an `AppendRow` error is
logged and swallowed. -/
def DuckDBStateAppender.appendInhibited (fingerprint : String)
    (inhibitedBy : List String) (scen : FailScenario) : AppendResult :=
  if scen.uuidFail then
    { outcome := .uuidPanic, rows := [], logs := [] }
  else
    match inhibitedBy with
    | [] => { outcome := .indexPanic, rows := [], logs := [] }
    | b0 :: _ =>
      if scen.writeFail then
        { outcome := .returned, rows := [], logs := [appendInhibitedErrLog] }
      else
        { outcome := .returned,
          rows := [{ fingerprint := fingerprint, state := AlertState.suppressed.str,
                     suppressedBy := some b0, suppressedReason := some reasonInhibited }],
          logs := [] }

/-- Dispatch one emitted decorator call to the storage-backed sink. -/
def callSink (fingerprint : String) (scen : FailScenario) : AppendCall → AppendResult
  | .append s => DuckDBStateAppender.append fingerprint s scen
  | .appendInhibited l => DuckDBStateAppender.appendInhibited fingerprint l scen

/-- One decorator mutating call composed with the storage-backed sink: the
authority is mutated first, then each emitted call is handed to the sink. -/
def stepWithSink (m : Option AlertStatus) (op : MarkerOp) (fingerprint : String)
    (scen : FailScenario) : Option AlertStatus × List AppendResult :=
  ((stepOp m op).1, (stepOp m op).2.map (callSink fingerprint scen))

/-- The `(state, suppressed_by, suppressed_reason)` triple the sink would persist
for one emitted call (on its success path). -/
def eventTriple : AppendCall → String × Option String × Option String
  | .append s => (s.str, none, if s = AlertState.suppressed then some reasonSilenced else none)
  | .appendInhibited l => (AlertState.suppressed.str, l.head?, some reasonInhibited)

/-- Whether an emitted call is an inhibited-suppression. -/
def isInhibitedCall : AppendCall → Bool
  | .append _ => false
  | .appendInhibited _ => true

/-- Fixed fingerprint literal used by concrete witnesses. -/
def fpLit : String := "f"

/-- Alert-identifier literal used by concrete witnesses. -/
def idLit : String := "i"

/-- Second alert-identifier literal used by concrete witnesses. -/
def idLit2 : String := "j"

/-- The invariant exactly as claimed: no two consecutive emitted events carry
the same persisted `(state, suppressed_by, suppressed_reason)` triple. -/
def noAdjacentDuplicate : List AppendCall → Bool
  | [] => true
  | [_] => true
  | e1 :: e2 :: rest =>
    decide (eventTriple e1 ≠ eventTriple e2) && noAdjacentDuplicate (e2 :: rest)

/-- Adjacent-pair admissibility for the amended invariant: two consecutive
events may share a persisted triple only when both are inhibited-suppressions. -/
def pairOk (prev e : AppendCall) : Bool :=
  if eventTriple prev = eventTriple e then isInhibitedCall prev && isInhibitedCall e
  else true

/-- `pairOk` against an optional previous event (`none`: nothing emitted yet). -/
def pairOkO : Option AppendCall → AppendCall → Bool
  | none, _ => true
  | some prev, e => pairOk prev e

/-- The amended invariant along an event list, relative to the event emitted
immediately before it (if any). -/
def chainOk : Option AppendCall → List AppendCall → Bool
  | _, [] => true
  | last, e :: rest => pairOkO last e && chainOk (some e) rest

/-- Shape invariant of every authority state the modelled mutators can produce:
an `Active` status carries no silence, pending-silence, or inhibitor IDs; a
`Suppressed` status carries at least one of them; an `Unprocessed` status (an
unseen fingerprint) carries none; and the status is never `Deleted`. -/
def ReachS (m : Option AlertStatus) : Prop :=
  ((MemMarker.status m).state = AlertState.active →
    (MemMarker.status m).silencedBy = [] ∧ (MemMarker.status m).pendingSilences = [] ∧
      (MemMarker.status m).inhibitedBy = []) ∧
  ((MemMarker.status m).state = AlertState.suppressed →
    (MemMarker.status m).silencedBy ≠ [] ∨ (MemMarker.status m).pendingSilences ≠ [] ∨
      (MemMarker.status m).inhibitedBy ≠ []) ∧
  ((MemMarker.status m).state = AlertState.unprocessed →
    (MemMarker.status m).silencedBy = [] ∧ (MemMarker.status m).pendingSilences = [] ∧
      (MemMarker.status m).inhibitedBy = []) ∧
  (MemMarker.status m).state ≠ AlertState.deleted

/-- What the most recently emitted event guarantees about the current authority
state: an `Active` event leaves the status `Active`; a silenced `Suppressed`
event leaves it `Suppressed` with no inhibitors; a `Deleted` event leaves the
fingerprint unseen; `Unprocessed` is never emitted; an inhibited-suppression
constrains nothing (consecutive inhibited events are admissible). -/
def Extra : Option AppendCall → Option AlertStatus → Prop
  | none, m => (MemMarker.status m).state = AlertState.unprocessed
  | some (AppendCall.append AlertState.active), m =>
      (MemMarker.status m).state = AlertState.active
  | some (AppendCall.append AlertState.suppressed), m =>
      (MemMarker.status m).state = AlertState.suppressed ∧
        (MemMarker.status m).inhibitedBy = []
  | some (AppendCall.append AlertState.deleted), m =>
      (MemMarker.status m).state = AlertState.unprocessed
  | some (AppendCall.append AlertState.unprocessed), _ => False
  | some (AppendCall.appendInhibited _), _ => True

/-- Induction invariant: the authority state has reachable shape and is
consistent with the last emitted event. -/
def Good (last : Option AppendCall) (m : Option AlertStatus) : Prop :=
  ReachS m ∧ Extra last m

/-- One-step conclusion of the invariant: a mutating call either emits nothing
and preserves the invariant, or emits exactly one event that is admissible after
the previous one and re-establishes the invariant. -/
def GoodStep (last : Option AppendCall) (m : Option AlertStatus) (op : MarkerOp) : Prop :=
  ((stepOp m op).2 = [] ∧ Good last (stepOp m op).1) ∨
  (∃ e, (stepOp m op).2 = [e] ∧ pairOkO last e = true ∧ Good (some e) (stepOp m op).1)

theorem MemMarker.status_none : MemMarker.status none = emptyStatus := rfl

theorem MemMarker.status_some (s : AlertStatus) : MemMarker.status (some s) = s := rfl

/-- Record-level description of the authority state after `SetActiveOrSilenced`. -/
theorem MemMarker.saos_eq (m : Option AlertStatus) (v : Int) (a p : List String) :
    MemMarker.setActiveOrSilenced m v a p =
      some { state := if a = [] ∧ p = [] ∧ (MemMarker.status m).inhibitedBy = []
                      then AlertState.active else AlertState.suppressed,
             silencedBy := a, pendingSilences := p,
             inhibitedBy := (MemMarker.status m).inhibitedBy, silencesVersion := v } := by
  cases m <;>
    · simp only [MemMarker.setActiveOrSilenced, MemMarker.status, Option.getD]
      split <;> simp_all

/-- Record-level description of the authority state after `SetInhibited`. -/
theorem MemMarker.si_eq (m : Option AlertStatus) (ids : List String) :
    MemMarker.setInhibited m ids =
      some { state := if ids = [] ∧ (MemMarker.status m).silencedBy = [] ∧
                        (MemMarker.status m).pendingSilences = []
                      then AlertState.active else AlertState.suppressed,
             silencedBy := (MemMarker.status m).silencedBy,
             pendingSilences := (MemMarker.status m).pendingSilences,
             inhibitedBy := ids, silencesVersion := (MemMarker.status m).silencesVersion } := by
  cases m <;>
    · simp only [MemMarker.setInhibited, MemMarker.status, Option.getD]
      split <;> simp_all

/-- After `SetActiveOrSilenced` the silenced flag holds exactly when a silence
(active or pending) was passed. -/
theorem silencedNow_saos (m : Option AlertStatus) (v : Int) (a p : List String) :
    MemMarker.silencedNow (MemMarker.setActiveOrSilenced m v a p) ↔ (a ≠ [] ∨ p ≠ []) := by
  rw [MemMarker.saos_eq]
  rcases Decidable.em (a = []) with ha | ha <;> rcases Decidable.em (p = []) with hp | hp <;>
    simp [MemMarker.silencedNow, MemMarker.status, ha, hp]

/-- After `SetInhibited` the inhibited flag holds exactly when a non-empty
inhibitor list was passed. -/
theorem inhibitedNow_si (m : Option AlertStatus) (ids : List String) :
    MemMarker.inhibitedNow (MemMarker.setInhibited m ids) ↔ ids ≠ [] := by
  rw [MemMarker.si_eq]
  rcases Decidable.em (ids = []) with hi | hi <;>
    simp [MemMarker.inhibitedNow, MemMarker.status, hi]

/-- After `SetInhibited` the authority resolves the inhibitor list to the passed
`alertIDs`. -/
theorem inhibitedIDs_si (m : Option AlertStatus) (ids : List String) :
    MemMarker.inhibitedIDs (MemMarker.setInhibited m ids) = ids := by
  rw [MemMarker.si_eq]
  rfl

/-- The decorator's `SetActiveOrSilenced` delegates the mutation unchanged. -/
theorem saos_fst (m : Option AlertStatus) (v : Int) (a p : List String) :
    (StateAwareMarker.setActiveOrSilenced m v a p).1 =
      MemMarker.setActiveOrSilenced m v a p := by
  unfold StateAwareMarker.setActiveOrSilenced
  dsimp only
  repeat' split
  all_goals rfl

/-- The decorator's `SetInhibited` delegates the mutation unchanged. -/
theorem si_fst (m : Option AlertStatus) (ids : List String) :
    (StateAwareMarker.setInhibited m ids).1 = MemMarker.setInhibited m ids := by
  unfold StateAwareMarker.setInhibited
  dsimp only
  repeat' split
  all_goals rfl

/-- The decorator's `Delete` delegates the deletion unchanged. -/
theorem del_fst (m : Option AlertStatus) :
    (StateAwareMarker.delete m).1 = MemMarker.delete m := by
  unfold StateAwareMarker.delete
  dsimp only
  split
  all_goals rfl

/-- Emitted events of `SetActiveOrSilenced` as a decision table over the
pre-mutation snapshot and the passed silence lists. -/
theorem saos_events (m : Option AlertStatus) (v : Int) (a p : List String) :
    (StateAwareMarker.setActiveOrSilenced m v a p).2 =
      if a = [] ∧ p = [] then
        if (MemMarker.status m).state = AlertState.suppressed ∧
            (MemMarker.status m).inhibitedBy ≠ [] then []
        else if (MemMarker.status m).state = AlertState.active then []
        else [AppendCall.append AlertState.active]
      else if (MemMarker.status m).state = AlertState.suppressed then []
      else [AppendCall.append AlertState.suppressed] := by
  have hflag := silencedNow_saos m v a p
  rcases Decidable.em (a = []) with ha | ha <;>
    rcases Decidable.em (p = []) with hp | hp <;>
    rcases Decidable.em ((MemMarker.status m).state = AlertState.suppressed) with hs | hs <;>
    rcases Decidable.em ((MemMarker.status m).inhibitedBy = []) with hi | hi <;>
    rcases Decidable.em ((MemMarker.status m).state = AlertState.active) with hA | hA <;>
    simp_all [StateAwareMarker.setActiveOrSilenced]

/-- Emitted events of `SetInhibited` as a decision table over the pre-mutation
snapshot and the passed inhibitor list. -/
theorem si_events (m : Option AlertStatus) (ids : List String) :
    (StateAwareMarker.setInhibited m ids).2 =
      if ids = [] then
        if (MemMarker.status m).state = AlertState.suppressed ∨
            (MemMarker.status m).state = AlertState.active then []
        else [AppendCall.append AlertState.active]
      else if (MemMarker.status m).state ≠ AlertState.suppressed then
        [AppendCall.appendInhibited ids]
      else if (MemMarker.status m).inhibitedBy ≠ ids then
        [AppendCall.appendInhibited ids]
      else [] := by
  have hflag := inhibitedNow_si m ids
  have hids := inhibitedIDs_si m ids
  rcases Decidable.em (ids = []) with hi | hi <;>
    rcases Decidable.em ((MemMarker.status m).state = AlertState.suppressed) with hs | hs <;>
    rcases Decidable.em ((MemMarker.status m).state = AlertState.active) with hA | hA <;>
    rcases Decidable.em ((MemMarker.status m).inhibitedBy = ids) with he | he <;>
    simp_all [StateAwareMarker.setInhibited]

/-- Emitted events of `Delete` as a decision table over the pre-mutation
snapshot. -/
theorem del_events (m : Option AlertStatus) :
    (StateAwareMarker.delete m).2 =
      if (MemMarker.status m).state = AlertState.unprocessed then []
      else [AppendCall.append AlertState.deleted] := by
  unfold StateAwareMarker.delete
  split <;> simp_all

/-- Claim C2: after `SetInhibited`, when the authority reports the alert
inhibited with resolved inhibitor list `by`: if the pre-mutation snapshot state
was not `Suppressed`, exactly one inhibited-suppression carrying `by` is emitted;
if it was already `Suppressed`, an inhibited-suppression is emitted if and only
if `by` differs, element-for-element in order, from the snapshot's `InhibitedBy`
list. -/
theorem claim_set_inhibited_append_iff_changed (m : Option AlertStatus) (ids : List String)
    (h : MemMarker.inhibitedNow (MemMarker.setInhibited m ids)) :
    ((MemMarker.status m).state ≠ AlertState.suppressed →
      (StateAwareMarker.setInhibited m ids).2 =
        [AppendCall.appendInhibited (MemMarker.inhibitedIDs (MemMarker.setInhibited m ids))]) ∧
    ((MemMarker.status m).state = AlertState.suppressed →
      ((StateAwareMarker.setInhibited m ids).2 =
          [AppendCall.appendInhibited (MemMarker.inhibitedIDs (MemMarker.setInhibited m ids))] ↔
        MemMarker.inhibitedIDs (MemMarker.setInhibited m ids) ≠ (MemMarker.status m).inhibitedBy)) := by
  have hids := inhibitedIDs_si m ids
  have hne : ids ≠ [] := (inhibitedNow_si m ids).mp h
  rw [hids, si_events m ids, if_neg hne]
  refine ⟨?_, ?_⟩
  · intro hs
    rw [if_pos hs]
  · intro hs
    rw [if_neg (not_not_intro hs)]
    by_cases he : (MemMarker.status m).inhibitedBy = ids
    · rw [if_neg (not_not_intro he)]
      simp [he]
    · rw [if_pos he]
      exact ⟨fun _ hx => he hx.symm, fun _ => rfl⟩

/-- Claim C2 witness: on an unseen fingerprint, inhibiting with one inhibitor
emits exactly that inhibited-suppression. -/
theorem claim_set_inhibited_append_iff_changed_witness :
    (StateAwareMarker.setInhibited none [idLit]).2 = [AppendCall.appendInhibited [idLit]] := by
  have h := (claim_set_inhibited_append_iff_changed none [idLit] (by decide)).1 (by decide)
  rw [inhibitedIDs_si] at h
  exact h

/-- Claim C3: for every starting authority state and every mutating operation,
issuing the same call twice in immediate succession emits at most one sink call
across both invocations: each call emits at most one event and the repeated call
emits nothing. -/
theorem claim_duplicate_call_appends_at_most_once (m : Option AlertStatus) (op : MarkerOp) :
    (stepOp m op).2.length ≤ 1 ∧ (stepOp (stepOp m op).1 op).2 = [] := by
  cases op with
  | setActiveOrSilenced v a p =>
    constructor
    · rw [stepOp, saos_events]
      repeat' split
      all_goals simp
    · rw [stepOp, stepOp, saos_fst, saos_events, MemMarker.saos_eq m v a p]
      rcases Decidable.em (a = []) with ha | ha <;>
        rcases Decidable.em (p = []) with hp | hp <;>
        rcases Decidable.em ((MemMarker.status m).inhibitedBy = []) with hi | hi <;>
        simp_all [MemMarker.status]
  | setInhibited ids =>
    constructor
    · rw [stepOp, si_events]
      repeat' split
      all_goals simp
    · rw [stepOp, stepOp, si_fst, si_events, MemMarker.si_eq m ids]
      rcases Decidable.em (ids = []) with hi | hi <;>
        rcases Decidable.em ((MemMarker.status m).silencedBy = []) with hs | hs <;>
        rcases Decidable.em ((MemMarker.status m).pendingSilences = []) with hp | hp <;>
        simp_all [MemMarker.status]
  | delete =>
    constructor
    · rw [stepOp, del_events]
      split
      all_goals simp
    · rw [stepOp, stepOp, del_fst, del_events, MemMarker.delete]
      simp [MemMarker.status, emptyStatus]

/-- Claim C4: after `SetActiveOrSilenced`, if the authority reports the alert
silenced, exactly one `Suppressed` event is emitted unless the snapshot state was
already `Suppressed` (whatever caused that suppression), in which case nothing
is; if not silenced, nothing is emitted when the snapshot was `Suppressed` with a
non-empty `InhibitedBy` or was `Active`, and otherwise exactly one `Active`
event is emitted. -/
theorem claim_set_active_or_silenced_decision (m : Option AlertStatus) (v : Int)
    (a p : List String) :
    (MemMarker.silencedNow (MemMarker.setActiveOrSilenced m v a p) →
      ((MemMarker.status m).state ≠ AlertState.suppressed →
        (StateAwareMarker.setActiveOrSilenced m v a p).2 =
          [AppendCall.append AlertState.suppressed]) ∧
      ((MemMarker.status m).state = AlertState.suppressed →
        (StateAwareMarker.setActiveOrSilenced m v a p).2 = [])) ∧
    (¬ MemMarker.silencedNow (MemMarker.setActiveOrSilenced m v a p) →
      ((((MemMarker.status m).state = AlertState.suppressed ∧
            (MemMarker.status m).inhibitedBy ≠ []) ∨
          (MemMarker.status m).state = AlertState.active →
        (StateAwareMarker.setActiveOrSilenced m v a p).2 = []) ∧
      (¬ (((MemMarker.status m).state = AlertState.suppressed ∧
            (MemMarker.status m).inhibitedBy ≠ []) ∨
          (MemMarker.status m).state = AlertState.active) →
        (StateAwareMarker.setActiveOrSilenced m v a p).2 =
          [AppendCall.append AlertState.active]))) := by
  have hflag := silencedNow_saos m v a p
  have hev := saos_events m v a p
  rcases Decidable.em (a = []) with ha | ha <;>
    rcases Decidable.em (p = []) with hp | hp <;>
    rcases Decidable.em ((MemMarker.status m).state = AlertState.suppressed) with hs | hs <;>
    rcases Decidable.em ((MemMarker.status m).inhibitedBy = []) with hi | hi <;>
    rcases Decidable.em ((MemMarker.status m).state = AlertState.active) with hA | hA <;>
    simp_all

/-- Claim C4 witness: on an unseen fingerprint with one active silence, the
silenced branch emits exactly one `Suppressed` event. -/
theorem claim_set_active_or_silenced_decision_witness :
    (StateAwareMarker.setActiveOrSilenced none 1 [idLit] []).2 =
      [AppendCall.append AlertState.suppressed] :=
  ((claim_set_active_or_silenced_decision none 1 [idLit] []).1 (by decide)).1 (by decide)

/-- Claim C5: `SetActiveOrSilenced` on a previously unseen fingerprint with a
non-empty `activeSilenceIDs` or a non-empty `pendingSilenceIDs` list emits
exactly one `Suppressed` event, and an immediately repeated identical call emits
nothing further. -/
theorem claim_fresh_silenced_appends_once (v : Int) (a p : List String)
    (h : a ≠ [] ∨ p ≠ []) :
    (StateAwareMarker.setActiveOrSilenced none v a p).2 =
      [AppendCall.append AlertState.suppressed] ∧
    (StateAwareMarker.setActiveOrSilenced
        (StateAwareMarker.setActiveOrSilenced none v a p).1 v a p).2 = [] := by
  constructor
  · rw [saos_events]
    rcases h with h | h <;> simp [h, MemMarker.status, emptyStatus]
  · have hrep := (claim_duplicate_call_appends_at_most_once none
      (MarkerOp.setActiveOrSilenced v a p)).2
    simpa [stepOp] using hrep

/-- Claim C5 witness: one active silence on an unseen fingerprint. -/
theorem claim_fresh_silenced_appends_once_witness :
    (StateAwareMarker.setActiveOrSilenced none 1 [idLit] []).2 =
      [AppendCall.append AlertState.suppressed] ∧
    (StateAwareMarker.setActiveOrSilenced
        (StateAwareMarker.setActiveOrSilenced none 1 [idLit] []).1 1 [idLit] []).2 = [] :=
  claim_fresh_silenced_appends_once 1 [idLit] [] (Or.inl (by decide))

/-- Claim C6: `Delete` delegates the deletion to the authority and emits exactly
one `Deleted` event unless the pre-mutation snapshot state was `Unprocessed`, in
which case it emits nothing. -/
theorem claim_delete_events (m : Option AlertStatus) :
    (StateAwareMarker.delete m).1 = MemMarker.delete m ∧
    ((MemMarker.status m).state = AlertState.unprocessed →
      (StateAwareMarker.delete m).2 = []) ∧
    ((MemMarker.status m).state ≠ AlertState.unprocessed →
      (StateAwareMarker.delete m).2 = [AppendCall.append AlertState.deleted]) := by
  refine ⟨del_fst m, ?_, ?_⟩ <;> intro h <;> rw [del_events] <;> simp [h]

/-- Claim C6 witness: deleting an unseen fingerprint emits nothing; deleting an
active one emits one `Deleted` event. -/
theorem claim_delete_events_witness :
    (StateAwareMarker.delete none).2 = [] ∧
    (StateAwareMarker.delete (some ⟨AlertState.active, [], [], [], 0⟩)).2 =
      [AppendCall.append AlertState.deleted] :=
  ⟨(claim_delete_events none).2.1 rfl, (claim_delete_events _).2.2 (by decide)⟩

/-- Claim C7: after `SetInhibited`, if the authority reports the alert not
inhibited, nothing is emitted when the pre-mutation snapshot state was
`Suppressed` or `Active`, and otherwise exactly one `Active` event is emitted. -/
theorem claim_set_inhibited_not_inhibited (m : Option AlertStatus) (ids : List String)
    (h : ¬ MemMarker.inhibitedNow (MemMarker.setInhibited m ids)) :
    (((MemMarker.status m).state = AlertState.suppressed ∨
        (MemMarker.status m).state = AlertState.active) →
      (StateAwareMarker.setInhibited m ids).2 = []) ∧
    (¬ ((MemMarker.status m).state = AlertState.suppressed ∨
        (MemMarker.status m).state = AlertState.active) →
      (StateAwareMarker.setInhibited m ids).2 = [AppendCall.append AlertState.active]) := by
  have hids : ids = [] := by
    have h2 := (inhibitedNow_si m ids).not.mp h
    simpa using h2
  rw [si_events, if_pos hids]
  constructor <;> intro hc <;> simp [hc]

/-- Claim C7 witness: `SetInhibited` with no inhibitors on an unseen fingerprint
emits one `Active` event. -/
theorem claim_set_inhibited_not_inhibited_witness :
    (StateAwareMarker.setInhibited none []).2 = [AppendCall.append AlertState.active] :=
  (claim_set_inhibited_not_inhibited none [] (by decide)).2 (by decide)

/-- Claim C8: on a successful write, `Append` with state `Suppressed` persists
`suppressed_by = null` and `suppressed_reason = "silenced"`; `Append` with any
other state persists both as null; `AppendInhibited` persists state `Suppressed`,
`suppressed_by = inhibitedBy[0]` (only the first inhibitor, however many are
supplied) and `suppressed_reason = "inhibited"`. -/
theorem claim_duckdb_row_fields (fp : String) (s : AlertState) (b0 : String)
    (rest : List String) (h : s ≠ AlertState.suppressed) :
    (DuckDBStateAppender.append fp AlertState.suppressed
        { uuidFail := false, writeFail := false }).rows =
      [⟨fp, AlertState.suppressed.str, none, some reasonSilenced⟩] ∧
    (DuckDBStateAppender.append fp s { uuidFail := false, writeFail := false }).rows =
      [⟨fp, s.str, none, none⟩] ∧
    (DuckDBStateAppender.appendInhibited fp (b0 :: rest)
        { uuidFail := false, writeFail := false }).rows =
      [⟨fp, AlertState.suppressed.str, some b0, some reasonInhibited⟩] := by
  refine ⟨rfl, ?_, rfl⟩
  simp [DuckDBStateAppender.append, h]

/-- Claim C8 witness: a non-suppressed append and a two-inhibitor inhibited
append. -/
theorem claim_duckdb_row_fields_witness :
    (DuckDBStateAppender.append fpLit AlertState.active
        { uuidFail := false, writeFail := false }).rows =
      [⟨fpLit, AlertState.active.str, none, none⟩] ∧
    (DuckDBStateAppender.appendInhibited fpLit (idLit :: [idLit2])
        { uuidFail := false, writeFail := false }).rows =
      [⟨fpLit, AlertState.suppressed.str, some idLit, some reasonInhibited⟩] :=
  ⟨(claim_duckdb_row_fields fpLit AlertState.active idLit [idLit2] (by decide)).2.1,
   (claim_duckdb_row_fields fpLit AlertState.active idLit [idLit2] (by decide)).2.2⟩

/-- Claim C9 counterexample: when identifier generation fails, `Append` and
`AppendInhibited` do not return normally (the `uuid.Must` panic propagates) and
log nothing — contradicting "any failure is logged with context and never
propagated". -/
theorem claim_append_failure_counterexample :
    (DuckDBStateAppender.append fpLit AlertState.active
        { uuidFail := true, writeFail := false }).outcome = AppendOutcome.uuidPanic ∧
    (DuckDBStateAppender.append fpLit AlertState.active
        { uuidFail := true, writeFail := false }).outcome ≠ AppendOutcome.returned ∧
    (DuckDBStateAppender.append fpLit AlertState.active
        { uuidFail := true, writeFail := false }).logs = [] ∧
    (DuckDBStateAppender.appendInhibited fpLit [idLit]
        { uuidFail := true, writeFail := false }).outcome = AppendOutcome.uuidPanic ∧
    (DuckDBStateAppender.appendInhibited fpLit [idLit]
        { uuidFail := true, writeFail := false }).logs = [] :=
  ⟨rfl, by decide, rfl, rfl, rfl⟩

/-- Claim C9 (amended): a store-write failure during `Append`/`AppendInhibited`
is logged with context and never propagated — the call returns normally, the
write is silently skipped, and the authority state the decorator computes is
independent of the sink's failures; an identifier-generation failure, however,
panics out of `uuid.Must` instead of being logged. -/
theorem claim_write_failure_swallowed (fp : String) (s : AlertState) (b0 : String)
    (rest : List String) (w : Bool) (m : Option AlertStatus) (op : MarkerOp)
    (scen scen2 : FailScenario) :
    (DuckDBStateAppender.append fp s { uuidFail := false, writeFail := true }).outcome =
      AppendOutcome.returned ∧
    (DuckDBStateAppender.append fp s { uuidFail := false, writeFail := true }).rows = [] ∧
    (DuckDBStateAppender.append fp s { uuidFail := false, writeFail := true }).logs =
      [appendErrLog] ∧
    (DuckDBStateAppender.appendInhibited fp (b0 :: rest)
        { uuidFail := false, writeFail := true }).outcome = AppendOutcome.returned ∧
    (DuckDBStateAppender.appendInhibited fp (b0 :: rest)
        { uuidFail := false, writeFail := true }).rows = [] ∧
    (DuckDBStateAppender.appendInhibited fp (b0 :: rest)
        { uuidFail := false, writeFail := true }).logs = [appendInhibitedErrLog] ∧
    (DuckDBStateAppender.append fp s { uuidFail := true, writeFail := w }).outcome =
      AppendOutcome.uuidPanic ∧
    (DuckDBStateAppender.appendInhibited fp (b0 :: rest)
        { uuidFail := true, writeFail := w }).outcome = AppendOutcome.uuidPanic ∧
    (stepWithSink m op fp scen).1 = (stepWithSink m op fp scen2).1 := by
  refine ⟨?_, ?_, ?_, rfl, rfl, rfl, rfl, rfl, rfl⟩ <;>
    rcases Decidable.em (s = AlertState.suppressed) with hs | hs <;>
    simp [DuckDBStateAppender.append, hs]

/-- Claim C10: `AppendInhibited` requires a non-empty inhibitor list: with an
empty list the call neither writes a row, nor logs, nor returns normally — when
identifier generation succeeds it hits the out-of-range index on
`inhibitedBy[0]` — while under the non-emptiness hypothesis the index panic is
unreachable. -/
theorem claim_append_inhibited_requires_nonempty (fp : String) (l : List String)
    (scen : FailScenario) :
    (l = [] →
      (DuckDBStateAppender.appendInhibited fp l scen).outcome ≠ AppendOutcome.returned ∧
      (DuckDBStateAppender.appendInhibited fp l scen).rows = [] ∧
      (DuckDBStateAppender.appendInhibited fp l scen).logs = []) ∧
    (l = [] → scen.uuidFail = false →
      (DuckDBStateAppender.appendInhibited fp l scen).outcome = AppendOutcome.indexPanic) ∧
    (l ≠ [] →
      (DuckDBStateAppender.appendInhibited fp l scen).outcome ≠ AppendOutcome.indexPanic) := by
  obtain ⟨u, w⟩ := scen
  refine ⟨?_, ?_, ?_⟩
  · intro hl
    subst hl
    cases u <;> simp [DuckDBStateAppender.appendInhibited]
  · intro hl hu
    subst hl
    simp only at hu
    subst hu
    rfl
  · intro hl
    obtain ⟨b0, rest, rfl⟩ : ∃ b0 rest, l = b0 :: rest := by
      cases l with
      | nil => exact absurd rfl hl
      | cons x xs => exact ⟨x, xs, rfl⟩
    cases u <;> cases w <;> simp [DuckDBStateAppender.appendInhibited]

theorem reachS_none : ReachS none := by
  refine ⟨fun h => absurd h (by decide), fun h => absurd h (by decide),
    fun _ => ⟨rfl, rfl, rfl⟩, by decide⟩

/-- A plain append and an inhibited-suppression never persist the same triple:
they differ in `suppressed_reason` (and, for non-suppressed states, in state). -/
theorem eventTriple_ne_inh (s : AlertState) (l : List String) :
    eventTriple (AppendCall.append s) ≠ eventTriple (AppendCall.appendInhibited l) := by
  intro h
  have h3 := congrArg (fun t => t.2.2) h
  cases s <;> simp [eventTriple, reasonSilenced, reasonInhibited] at h3

theorem pairOk_append_inh (s : AlertState) (l : List String) :
    pairOk (AppendCall.append s) (AppendCall.appendInhibited l) = true := by
  unfold pairOk
  rw [if_neg (eventTriple_ne_inh s l)]

theorem pairOk_inh_any (l : List String) (e : AppendCall) :
    pairOk (AppendCall.appendInhibited l) e = true := by
  cases e with
  | append s =>
    unfold pairOk
    rw [if_neg (fun h => eventTriple_ne_inh s l h.symm)]
  | appendInhibited l2 =>
    unfold pairOk
    split <;> simp [isInhibitedCall]

theorem pairOk_append_ne (s s2 : AlertState) (h : s ≠ s2) :
    pairOk (AppendCall.append s) (AppendCall.append s2) = true := by
  cases s <;> cases s2 <;> first | exact absurd rfl h | decide

/-- `SetActiveOrSilenced` always produces a reachable-shape authority state. -/
theorem reachS_saos (m : Option AlertStatus) (v : Int) (a p : List String) :
    ReachS (MemMarker.setActiveOrSilenced m v a p) := by
  rw [MemMarker.saos_eq]
  rcases Decidable.em (a = [] ∧ p = [] ∧ (MemMarker.status m).inhibitedBy = []) with hc | hc
  · rw [if_pos hc]
    refine ⟨fun _ => ⟨hc.1, hc.2.1, hc.2.2⟩, fun h => AlertState.noConfusion h,
      fun h => AlertState.noConfusion h, fun h => AlertState.noConfusion h⟩
  · rw [if_neg hc]
    refine ⟨fun h => AlertState.noConfusion h, fun _ => ?_,
      fun h => AlertState.noConfusion h, fun h => AlertState.noConfusion h⟩
    show a ≠ [] ∨ p ≠ [] ∨ (MemMarker.status m).inhibitedBy ≠ []
    tauto

/-- `SetInhibited` always produces a reachable-shape authority state. -/
theorem reachS_si (m : Option AlertStatus) (ids : List String) :
    ReachS (MemMarker.setInhibited m ids) := by
  rw [MemMarker.si_eq]
  rcases Decidable.em (ids = [] ∧ (MemMarker.status m).silencedBy = [] ∧
      (MemMarker.status m).pendingSilences = []) with hc | hc
  · rw [if_pos hc]
    refine ⟨fun _ => ⟨hc.2.1, hc.2.2, hc.1⟩, fun h => AlertState.noConfusion h,
      fun h => AlertState.noConfusion h, fun h => AlertState.noConfusion h⟩
  · rw [if_neg hc]
    refine ⟨fun h => AlertState.noConfusion h, fun _ => ?_,
      fun h => AlertState.noConfusion h, fun h => AlertState.noConfusion h⟩
    show (MemMarker.status m).silencedBy ≠ [] ∨ (MemMarker.status m).pendingSilences ≠ [] ∨
      ids ≠ []
    tauto

theorem status_saos_state (m : Option AlertStatus) (v : Int) (a p : List String) :
    (MemMarker.status (MemMarker.setActiveOrSilenced m v a p)).state =
      if a = [] ∧ p = [] ∧ (MemMarker.status m).inhibitedBy = []
      then AlertState.active else AlertState.suppressed := by
  rw [MemMarker.saos_eq]
  rfl

theorem status_saos_inh (m : Option AlertStatus) (v : Int) (a p : List String) :
    (MemMarker.status (MemMarker.setActiveOrSilenced m v a p)).inhibitedBy =
      (MemMarker.status m).inhibitedBy := by
  rw [MemMarker.saos_eq]
  rfl

theorem status_si_state (m : Option AlertStatus) (ids : List String) :
    (MemMarker.status (MemMarker.setInhibited m ids)).state =
      if ids = [] ∧ (MemMarker.status m).silencedBy = [] ∧
          (MemMarker.status m).pendingSilences = []
      then AlertState.active else AlertState.suppressed := by
  rw [MemMarker.si_eq]
  rfl

theorem status_si_inhibitedBy (m : Option AlertStatus) (ids : List String) :
    (MemMarker.status (MemMarker.setInhibited m ids)).inhibitedBy = ids := by
  rw [MemMarker.si_eq]
  rfl

theorem stepGood_delete (last : Option AppendCall) (m : Option AlertStatus)
    (h : Good last m) : GoodStep last m MarkerOp.delete := by
  obtain ⟨hre, hex⟩ := h
  unfold GoodStep
  simp only [stepOp]
  rw [del_events, del_fst, MemMarker.delete]
  by_cases hu : (MemMarker.status m).state = AlertState.unprocessed
  · left
    rw [if_pos hu]
    refine ⟨rfl, reachS_none, ?_⟩
    cases last with
    | none => exact rfl
    | some e =>
      cases e with
      | append s =>
        cases s with
        | unprocessed => exact hex.elim
        | active =>
          simp only [Extra] at hex
          rw [hu] at hex
          exact AlertState.noConfusion hex
        | suppressed =>
          simp only [Extra] at hex
          rw [hu] at hex
          exact AlertState.noConfusion hex.1
        | deleted => exact rfl
      | appendInhibited l => exact trivial
  · right
    refine ⟨AppendCall.append AlertState.deleted, by rw [if_neg hu], ?_, reachS_none, rfl⟩
    cases last with
    | none => rfl
    | some e =>
      cases e with
      | append s =>
        cases s with
        | unprocessed => exact hex.elim
        | active => exact pairOk_append_ne _ _ (by decide)
        | suppressed => exact pairOk_append_ne _ _ (by decide)
        | deleted => exact absurd hex hu
      | appendInhibited l => exact pairOk_inh_any l _

theorem stepGood_saos (last : Option AppendCall) (m : Option AlertStatus) (v : Int)
    (a p : List String) (h : Good last m) :
    GoodStep last m (MarkerOp.setActiveOrSilenced v a p) := by
  obtain ⟨hre, hex⟩ := h
  unfold GoodStep
  simp only [stepOp]
  rw [saos_events, saos_fst]
  by_cases hap : a = [] ∧ p = []
  · rw [if_pos hap]
    by_cases h1 : (MemMarker.status m).state = AlertState.suppressed ∧
        (MemMarker.status m).inhibitedBy ≠ []
    · left
      rw [if_pos h1]
      refine ⟨rfl, reachS_saos m v a p, ?_⟩
      cases last with
      | none =>
        simp only [Extra] at hex
        rw [hex] at h1
        exact AlertState.noConfusion h1.1
      | some e =>
        cases e with
        | append s =>
          cases s with
          | unprocessed => exact hex.elim
          | active =>
            simp only [Extra] at hex
            rw [hex] at h1
            exact AlertState.noConfusion h1.1
          | suppressed =>
            simp only [Extra] at hex
            exact absurd hex.2 h1.2
          | deleted =>
            simp only [Extra] at hex
            rw [hex] at h1
            exact AlertState.noConfusion h1.1
        | appendInhibited l => exact trivial
    · by_cases h2 : (MemMarker.status m).state = AlertState.active
      · left
        rw [if_neg h1, if_pos h2]
        refine ⟨rfl, reachS_saos m v a p, ?_⟩
        have hcond : a = [] ∧ p = [] ∧ (MemMarker.status m).inhibitedBy = [] :=
          ⟨hap.1, hap.2, (hre.1 h2).2.2⟩
        cases last with
        | none =>
          simp only [Extra] at hex
          rw [hex] at h2
          exact AlertState.noConfusion h2
        | some e =>
          cases e with
          | append s =>
            cases s with
            | unprocessed => exact hex.elim
            | active =>
              simp only [Extra]
              rw [status_saos_state, if_pos hcond]
            | suppressed =>
              simp only [Extra] at hex
              rw [h2] at hex
              exact AlertState.noConfusion hex.1
            | deleted =>
              simp only [Extra] at hex
              rw [h2] at hex
              exact AlertState.noConfusion hex
          | appendInhibited l => exact trivial
      · right
        rw [if_neg h1, if_neg h2]
        have hinh : (MemMarker.status m).inhibitedBy = [] := by
          cases hst4 : (MemMarker.status m).state with
          | unprocessed => exact (hre.2.2.1 hst4).2.2
          | active => exact absurd hst4 h2
          | suppressed =>
            by_contra hne
            exact h1 ⟨hst4, hne⟩
          | deleted => exact absurd hst4 hre.2.2.2
        have hcond : a = [] ∧ p = [] ∧ (MemMarker.status m).inhibitedBy = [] :=
          ⟨hap.1, hap.2, hinh⟩
        refine ⟨AppendCall.append AlertState.active, rfl, ?_, reachS_saos m v a p, ?_⟩
        · cases last with
          | none => rfl
          | some e =>
            cases e with
            | append s =>
              cases s with
              | unprocessed => exact hex.elim
              | active =>
                simp only [Extra] at hex
                exact absurd hex h2
              | suppressed => exact pairOk_append_ne _ _ (by decide)
              | deleted => exact pairOk_append_ne _ _ (by decide)
            | appendInhibited l => exact pairOk_inh_any l _
        · simp only [Extra]
          rw [status_saos_state, if_pos hcond]
  · rw [if_neg hap]
    by_cases hs : (MemMarker.status m).state = AlertState.suppressed
    · left
      rw [if_pos hs]
      refine ⟨rfl, reachS_saos m v a p, ?_⟩
      cases last with
      | none =>
        simp only [Extra] at hex
        rw [hex] at hs
        exact AlertState.noConfusion hs
      | some e =>
        cases e with
        | append s =>
          cases s with
          | unprocessed => exact hex.elim
          | active =>
            simp only [Extra] at hex
            rw [hex] at hs
            exact AlertState.noConfusion hs
          | suppressed =>
            simp only [Extra] at hex ⊢
            refine ⟨?_, ?_⟩
            · rw [status_saos_state, if_neg (fun hc => hap ⟨hc.1, hc.2.1⟩)]
            · rw [status_saos_inh]
              exact hex.2
          | deleted =>
            simp only [Extra] at hex
            rw [hex] at hs
            exact AlertState.noConfusion hs
        | appendInhibited l => exact trivial
    · right
      rw [if_neg hs]
      have hinh : (MemMarker.status m).inhibitedBy = [] := by
        cases hst4 : (MemMarker.status m).state with
        | unprocessed => exact (hre.2.2.1 hst4).2.2
        | active => exact (hre.1 hst4).2.2
        | suppressed => exact absurd hst4 hs
        | deleted => exact absurd hst4 hre.2.2.2
      refine ⟨AppendCall.append AlertState.suppressed, rfl, ?_, reachS_saos m v a p, ?_⟩
      · cases last with
        | none => rfl
        | some e =>
          cases e with
          | append s =>
            cases s with
            | unprocessed => exact hex.elim
            | active => exact pairOk_append_ne _ _ (by decide)
            | suppressed =>
              simp only [Extra] at hex
              exact absurd hex.1 hs
            | deleted => exact pairOk_append_ne _ _ (by decide)
          | appendInhibited l => exact pairOk_inh_any l _
      · simp only [Extra]
        refine ⟨?_, ?_⟩
        · rw [status_saos_state, if_neg (fun hc => hap ⟨hc.1, hc.2.1⟩)]
        · rw [status_saos_inh]
          exact hinh

theorem stepGood_si (last : Option AppendCall) (m : Option AlertStatus) (ids : List String)
    (h : Good last m) : GoodStep last m (MarkerOp.setInhibited ids) := by
  obtain ⟨hre, hex⟩ := h
  unfold GoodStep
  simp only [stepOp]
  rw [si_events, si_fst]
  by_cases hi : ids = []
  · rw [if_pos hi]
    by_cases hsa : (MemMarker.status m).state = AlertState.suppressed ∨
        (MemMarker.status m).state = AlertState.active
    · left
      rw [if_pos hsa]
      refine ⟨rfl, reachS_si m ids, ?_⟩
      cases last with
      | none =>
        simp only [Extra] at hex
        rcases hsa with hsa | hsa
        · rw [hex] at hsa
          exact AlertState.noConfusion hsa
        · rw [hex] at hsa
          exact AlertState.noConfusion hsa
      | some e =>
        cases e with
        | append s =>
          cases s with
          | unprocessed => exact hex.elim
          | active =>
            simp only [Extra] at hex ⊢
            have hsp := hre.1 hex
            rw [status_si_state, if_pos ⟨hi, hsp.1, hsp.2.1⟩]
          | suppressed =>
            simp only [Extra] at hex ⊢
            have hsp2 : (MemMarker.status m).silencedBy ≠ [] ∨
                (MemMarker.status m).pendingSilences ≠ [] := by
              rcases hre.2.1 hex.1 with h3 | h3 | h3
              · exact Or.inl h3
              · exact Or.inr h3
              · exact absurd hex.2 h3
            refine ⟨?_, ?_⟩
            · rw [status_si_state, if_neg (fun hc => ?_)]
              rcases hsp2 with h3 | h3
              · exact h3 hc.2.1
              · exact h3 hc.2.2
            · rw [status_si_inhibitedBy]
              exact hi
          | deleted =>
            simp only [Extra] at hex
            rcases hsa with hsa | hsa
            · rw [hex] at hsa
              exact AlertState.noConfusion hsa
            · rw [hex] at hsa
              exact AlertState.noConfusion hsa
        | appendInhibited l => exact trivial
    · right
      rw [if_neg hsa]
      have hu : (MemMarker.status m).state = AlertState.unprocessed := by
        cases hst4 : (MemMarker.status m).state with
        | unprocessed => rfl
        | active => exact absurd (Or.inr hst4) hsa
        | suppressed => exact absurd (Or.inl hst4) hsa
        | deleted => exact absurd hst4 hre.2.2.2
      have hsp := hre.2.2.1 hu
      refine ⟨AppendCall.append AlertState.active, rfl, ?_, reachS_si m ids, ?_⟩
      · cases last with
        | none => rfl
        | some e =>
          cases e with
          | append s =>
            cases s with
            | unprocessed => exact hex.elim
            | active =>
              simp only [Extra] at hex
              exact absurd (Or.inr hex) hsa
            | suppressed => exact pairOk_append_ne _ _ (by decide)
            | deleted => exact pairOk_append_ne _ _ (by decide)
          | appendInhibited l => exact pairOk_inh_any l _
      · simp only [Extra]
        rw [status_si_state, if_pos ⟨hi, hsp.1, hsp.2.1⟩]
  · rw [if_neg hi]
    by_cases hs : (MemMarker.status m).state = AlertState.suppressed
    · rw [if_neg (not_not_intro hs)]
      by_cases he : (MemMarker.status m).inhibitedBy = ids
      · left
        rw [if_neg (not_not_intro he)]
        refine ⟨rfl, reachS_si m ids, ?_⟩
        cases last with
        | none =>
          simp only [Extra] at hex
          rw [hex] at hs
          exact AlertState.noConfusion hs
        | some e =>
          cases e with
          | append s =>
            cases s with
            | unprocessed => exact hex.elim
            | active =>
              simp only [Extra] at hex
              rw [hex] at hs
              exact AlertState.noConfusion hs
            | suppressed =>
              simp only [Extra] at hex
              rw [hex.2] at he
              exact absurd he.symm hi
            | deleted =>
              simp only [Extra] at hex
              rw [hex] at hs
              exact AlertState.noConfusion hs
          | appendInhibited l => exact trivial
      · right
        rw [if_pos he]
        refine ⟨AppendCall.appendInhibited ids, rfl, ?_, reachS_si m ids, trivial⟩
        cases last with
        | none => rfl
        | some e =>
          cases e with
          | append s => exact pairOk_append_inh s ids
          | appendInhibited l => exact pairOk_inh_any l _
    · right
      rw [if_pos hs]
      refine ⟨AppendCall.appendInhibited ids, rfl, ?_, reachS_si m ids, trivial⟩
      cases last with
      | none => rfl
      | some e =>
        cases e with
        | append s => exact pairOk_append_inh s ids
        | appendInhibited l => exact pairOk_inh_any l _

/-- Dispatch of the one-step invariant over the three mutating operations. -/
theorem stepOp_good (last : Option AppendCall) (m : Option AlertStatus) (op : MarkerOp)
    (h : Good last m) : GoodStep last m op := by
  cases op with
  | setActiveOrSilenced v a p => exact stepGood_saos last m v a p h
  | setInhibited ids => exact stepGood_si last m ids h
  | delete => exact stepGood_delete last m h

/-- Along any serialized run of mutating calls the emitted event list satisfies
the amended adjacent-pair invariant. -/
theorem runOps_chainOk (ops : List MarkerOp) :
    ∀ (last : Option AppendCall) (m : Option AlertStatus), Good last m →
      chainOk last (runOps m ops).2 = true := by
  induction ops with
  | nil =>
    intro last m _
    rfl
  | cons op ops ih =>
    intro last m h
    rcases stepOp_good last m op h with ⟨hnil, hg⟩ | ⟨e, hone, hpair, hg⟩
    · show chainOk last ((stepOp m op).2 ++ (runOps (stepOp m op).1 ops).2) = true
      rw [hnil, List.nil_append]
      exact ih last _ hg
    · show chainOk last ((stepOp m op).2 ++ (runOps (stepOp m op).1 ops).2) = true
      rw [hone]
      show (pairOkO last e && chainOk (some e) (runOps (stepOp m op).1 ops).2) = true
      rw [hpair, ih (some e) _ hg]
      rfl

/-- Claim C1 counterexample: the serialized sequence SetInhibited([i]) •
SetActiveOrSilenced(1, [j], []) • SetInhibited([]) • SetInhibited([i]) on an
unseen fingerprint makes the decorator emit exactly two events, which are
consecutive, identical inhibited-suppressions — the same state `Suppressed` and
the same `suppressed_by`/`suppressed_reason` pair — refuting the stated
invariant: the silence keeps the alert `Suppressed` while the inhibition is
dropped and re-imposed, so both intermediate calls emit nothing. -/
theorem claim_no_adjacent_duplicate_counterexample :
    (runOps none [MarkerOp.setInhibited [idLit], MarkerOp.setActiveOrSilenced 1 [idLit2] [],
        MarkerOp.setInhibited [], MarkerOp.setInhibited [idLit]]).2 =
      [AppendCall.appendInhibited [idLit], AppendCall.appendInhibited [idLit]] ∧
    noAdjacentDuplicate (runOps none [MarkerOp.setInhibited [idLit],
        MarkerOp.setActiveOrSilenced 1 [idLit2] [], MarkerOp.setInhibited [],
        MarkerOp.setInhibited [idLit]]).2 = false :=
  ⟨by decide, by decide⟩

/-- Claim C1 (amended): for every serialized sequence of mutating calls on a
single fingerprint, the decorator's emitted event sequence never contains two
consecutive events with the same persisted state and
`suppressed_by`/`suppressed_reason` pair, **except** that two consecutive
inhibited-suppressions may repeat the pair. -/
theorem claim_no_adjacent_duplicate_amended (ops : List MarkerOp) :
    chainOk none (runOps none ops).2 = true :=
  runOps_chainOk ops none none ⟨reachS_none, rfl⟩

/-- Claim C10 witness: the empty list hits the index panic, a singleton does
not. -/
theorem claim_append_inhibited_requires_nonempty_witness :
    (DuckDBStateAppender.appendInhibited fpLit []
        { uuidFail := false, writeFail := false }).outcome = AppendOutcome.indexPanic ∧
    (DuckDBStateAppender.appendInhibited fpLit [idLit]
        { uuidFail := false, writeFail := false }).outcome ≠ AppendOutcome.indexPanic :=
  ⟨(claim_append_inhibited_requires_nonempty fpLit [] _).2.1 rfl rfl,
   (claim_append_inhibited_requires_nonempty fpLit [idLit] _).2.2 (by decide)⟩

end AlertAnalytics
